import Mathlib

/-!
A shallow embedding of the `RussellDCFFramework` DCF analysis engine
(`russell-dcf-framework.js`): yield projection, Phi-hedged IRR estimation,
liquidity validation and the comprehensive DCF synthesis, together with proofs
of the stated properties of these operations.

Numbers are embedded as exact rationals (the specification treats all numeric
monetary values as exact-precision reals).  The one operation with no rational
closed form, `Math.pow(x, 1 / years)`, is abstracted as an explicit function
parameter `jsPow`; `Math.pow(x, 1)` returns `x` exactly, which is all the
concrete evaluations below rely on.  The wall-clock reading
`new Date().toISOString()` is passed in explicitly as a string `now`.
-/

namespace RussellDCF

/-- Engine configuration: the constructor defaults of `RussellDCFFramework`,
overridable field by field (the source merges a partial config onto these
defaults). -/
structure Config where
  projectName : String := "Tokyo Expansion - Shinjuku Tower"
  location : String := "Shinjuku, Tokyo"
  phiRatio : ℚ := 1.618033988749895
  discountRate : ℚ := 0.08
  deriving DecidableEq, Repr, Inhabited

/-- One ledger record: an entry of `this.cashFlows`, `{ year, amount }`. -/
structure CashFlowRecord where
  year : ℕ
  amount : ℚ
  deriving DecidableEq, Repr, Inhabited

/-- The mutable instance state of a `RussellDCFFramework` object: its
configuration, the cash-flow ledger and the liquidity pool value. -/
structure FrameworkState where
  config : Config
  cashFlows : List CashFlowRecord
  liquidityPool : ℚ
  deriving DecidableEq, Repr, Inhabited

/-- A freshly constructed engine: empty ledger, zero liquidity pool. -/
def freshState (cfg : Config) : FrameworkState :=
  { config := cfg, cashFlows := [], liquidityPool := 0 }

/-- JavaScript `o || d` on an optional number: the default replaces both an
absent (`undefined`) and a falsy (`0`) value. -/
def jsOr (o : Option ℚ) (d : ℚ) : ℚ :=
  match o with
  | none => d
  | some x => if x = 0 then d else x

/-- Rounding to the nearest integer, half away from zero for nonnegative
input: the integer selected by `Number.prototype.toFixed` (ties pick the
larger candidate). -/
def roundHalfUp (x : ℚ) : ℤ :=
  Int.floor (x + 1 / 2)

/-- The numeric value denoted by the string `x.toFixed(digits)`: `x` rounded
to `digits` decimal places (the sign is applied after rounding the magnitude,
as in the ECMAScript algorithm).  `parseFloat` applied to the produced decimal
string reads back exactly this value. -/
def toFixedVal (digits : ℕ) (x : ℚ) : ℚ :=
  if x < 0 then -((roundHalfUp ((-x) * 10 ^ digits) : ℚ) / 10 ^ digits)
  else (roundHalfUp (x * 10 ^ digits) : ℚ) / 10 ^ digits

/-- Left-pads a numeral with zeros to the requested width. -/
def padZeros (width : ℕ) (s : String) : String :=
  String.mk (List.replicate (width - s.length) '0') ++ s

/-- The decimal string produced by JavaScript `x.toFixed(digits)`. -/
def toFixedStr (digits : ℕ) (x : ℚ) : String :=
  let sign := if x < 0 then "-" else ""
  let y := if x < 0 then -x else x
  let m := roundHalfUp (y * 10 ^ digits)
  let ip := m / (10 ^ digits : ℤ)
  let fp := m % (10 ^ digits : ℤ)
  sign ++ toString ip ++ (if digits = 0 then "" else "." ++ padZeros digits (toString fp.toNat))

/-- JavaScript number-to-string coercion for the values that occur here:
integers print without a decimal point.  (No claim inspects a field built from
this function at a non-integer value.) -/
def jsNumToString (q : ℚ) : String :=
  if q.den = 1 then toString q.num else toString q

/-- The optional argument object of `calculateYieldProjection`; an absent field
(`undefined`) triggers the destructuring default, a present `0` does not. -/
structure ProjectionParams where
  initialInvestment : Option ℚ := none
  years : Option ℕ := none
  growthRate : Option ℚ := none
  occupancyRate : Option ℚ := none
  deriving DecidableEq, Repr, Inhabited

/-- One entry of `yearlyProjections`. -/
structure YearlyProjection where
  year : ℕ
  baseYield : ℚ
  adjustedYield : ℚ
  phiAdjustedYield : ℚ
  cumulativeYield : ℚ
  occupancyRate : ℚ
  deriving DecidableEq, Repr, Inhabited

/-- The object returned by `calculateYieldProjection`. -/
structure YieldProjectionResult where
  projectName : String
  initialInvestment : ℚ
  projectionPeriod : ℕ
  yearlyProjections : List YearlyProjection
  totalProjectedYield : ℚ
  averageAnnualYield : ℚ
  timestamp : String
  deriving DecidableEq, Repr, Inhabited

/-- The projection loop for years `1 .. n`:
`baseYield = initialInvestment * (1 + growthRate) ^ year`,
`adjustedYield = baseYield * occupancyRate`,
`phiAdjustedYield = adjustedYield * (1 + (1 / phiRatio - 1) * 0.1)`,
a running cumulative sum, one `yearlyProjections` row and one pushed
cash-flow record per year.  Returns
(yearly rows, pushed cash-flow records, final cumulative yield). -/
def projectionLoop (cfg : Config) (initialInvestment growthRate occupancyRate : ℚ) :
    ℕ → List YearlyProjection × List CashFlowRecord × ℚ
  | 0 => ([], [], 0)
  | n + 1 =>
    let prev := projectionLoop cfg initialInvestment growthRate occupancyRate n
    let year := n + 1
    let baseYield := initialInvestment * (1 + growthRate) ^ year
    let adjustedYield := baseYield * occupancyRate
    let phiAdjustedYield := adjustedYield * (1 + (1 / cfg.phiRatio - 1) * 0.1)
    let cumulativeYield := prev.2.2 + phiAdjustedYield
    (prev.1 ++ [{ year := year, baseYield := baseYield, adjustedYield := adjustedYield,
                  phiAdjustedYield := phiAdjustedYield, cumulativeYield := cumulativeYield,
                  occupancyRate := occupancyRate }],
     prev.2.1 ++ [{ year := year, amount := phiAdjustedYield }],
     cumulativeYield)

/-- `calculateYieldProjection(projectionParams)`: computes the yearly yield
forecast and pushes one cash-flow record per year onto the engine's ledger
(appending after any prior records).  Destructuring defaults 50000000 / 10 /
0.12 / 0.92 apply to absent fields. -/
def calculateYieldProjection (st : FrameworkState) (p : ProjectionParams) (now : String) :
    YieldProjectionResult × FrameworkState :=
  let initialInvestment := p.initialInvestment.getD 50000000
  let years := p.years.getD 10
  let growthRate := p.growthRate.getD 0.12
  let occupancyRate := p.occupancyRate.getD 0.92
  let loop := projectionLoop st.config initialInvestment growthRate occupancyRate years
  ({ projectName := st.config.projectName
     initialInvestment := initialInvestment
     projectionPeriod := years
     yearlyProjections := loop.1
     totalProjectedYield := loop.2.2
     averageAnnualYield := loop.2.2 / (years : ℚ)
     timestamp := now },
   { st with cashFlows := st.cashFlows ++ loop.2.1 })

/-- The `riskMetrics` object of an IRR analysis. -/
structure RiskMetrics where
  sharpeRatio : String
  sortinoRatio : String
  volatility : String
  downsideDeviation : String
  deriving DecidableEq, Repr, Inhabited

/-- The object returned by `calculatePhiHedgedIRR`. -/
structure IRRResult where
  baseIRR : String
  phiHedgedIRR : String
  phiRatio : ℚ
  hedgeFactor : ℚ
  riskMetrics : RiskMetrics
  recommendation : String
  timestamp : String
  deriving DecidableEq, Repr, Inhabited

/-- `totalCashFlow = this.cashFlows.reduce((sum, cf) => sum + cf.amount, 0)`. -/
def totalCashFlow (flows : List CashFlowRecord) : ℚ :=
  flows.foldl (fun sum cf => sum + cf.amount) 0

/-- The numeric `baseIRR` local of `calculatePhiHedgedIRR`:
`Math.pow(totalCashFlow / initialInvestment, 1 / years) - 1`, the geometric
mean approximation, where `years` is the ledger length and `jsPow` embeds
`Math.pow`. -/
def baseIRRval (jsPow : ℚ → ℚ → ℚ) (flows : List CashFlowRecord) (initialInvestment : ℚ) : ℚ :=
  jsPow (totalCashFlow flows / initialInvestment) (1 / (flows.length : ℚ)) - 1

/-- `phiHedgeFactor = 1 / this.config.phiRatio` (the inverse golden ratio). -/
def hedgeFactorOf (cfg : Config) : ℚ :=
  1 / cfg.phiRatio

/-- The numeric `phiHedgedIRR` local of `calculatePhiHedgedIRR`:
`baseIRR * (1 + phiHedgeFactor * 0.15)`. -/
def hedgedIRRval (jsPow : ℚ → ℚ → ℚ) (cfg : Config) (flows : List CashFlowRecord)
    (initialInvestment : ℚ) : ℚ :=
  baseIRRval jsPow flows initialInvestment * (1 + hedgeFactorOf cfg * 0.15)

/-- `calculatePhiHedgedIRR(initialInvestment)`: throws when the ledger is
empty, otherwise returns the formatted rates, risk ratios and recommendation.
The instance state is not modified.  (The source also computes an
`averageCashFlow` local that no output depends on; it is omitted here.) -/
def calculatePhiHedgedIRR (jsPow : ℚ → ℚ → ℚ) (st : FrameworkState)
    (initialInvestment : ℚ) (now : String) : Except String IRRResult :=
  if st.cashFlows.length = 0 then
    .error "No cash flows available. Run calculateYieldProjection first."
  else
    let base := baseIRRval jsPow st.cashFlows initialInvestment
    let phiHedged := hedgedIRRval jsPow st.config st.cashFlows initialInvestment
    let sharpe := phiHedged / 0.15
    let sortino := phiHedged / 0.10
    .ok { baseIRR := toFixedStr 2 (base * 100) ++ "%"
          phiHedgedIRR := toFixedStr 2 (phiHedged * 100) ++ "%"
          phiRatio := st.config.phiRatio
          hedgeFactor := hedgeFactorOf st.config
          riskMetrics := { sharpeRatio := toFixedStr 2 sharpe
                           sortinoRatio := toFixedStr 2 sortino
                           volatility := "15%"
                           downsideDeviation := "10%" }
          recommendation :=
            if phiHedged > 0.12 then "Strong Buy"
            else if phiHedged > 0.08 then "Buy"
            else "Hold"
          timestamp := now }

/-- The optional argument object of `validateLiquidityMechanisms`. -/
structure LiquidityParams where
  totalAssetValue : Option ℚ := none
  currentLiquidity : Option ℚ := none
  requiredLiquidityRatio : Option ℚ := none
  emergencyReserveRatio : Option ℚ := none
  deriving DecidableEq, Repr, Inhabited

/-- The four boolean validation checks. -/
structure Validations where
  sufficientLiquidity : Bool
  emergencyReserveMet : Bool
  optimalRatio : Bool
  phiAligned : Bool
  deriving DecidableEq, Repr, Inhabited

/-- The object returned by `validateLiquidityMechanisms`. -/
structure LiquidityResult where
  totalAssetValue : ℚ
  currentLiquidity : ℚ
  requiredLiquidity : ℚ
  emergencyReserve : ℚ
  actualLiquidityRatio : String
  phiLiquidityScore : String
  validations : Validations
  status : String
  recommendations : List String
  timestamp : String
  deriving DecidableEq, Repr, Inhabited

/-- The affirmative recommendation pushed when every check passes. -/
def affirmativeMessage : String :=
  "All liquidity mechanisms validated - maintain current strategy"

/-- The recommendation pushed when `sufficientLiquidity` fails; the deficit is
`required - current`, formatted in millions. -/
def increaseLiquidityMessage (deficit : ℚ) : String :=
  "Increase liquidity by $" ++ toFixedStr 2 (deficit / 1000000) ++ "M to meet requirements"

/-- The recommendation pushed when `emergencyReserveMet` fails. -/
def emergencyReserveMessage : String :=
  "Build emergency reserve to minimum 5% of total asset value"

/-- The recommendation pushed when `optimalRatio` fails with the ratio below
the optimal range. -/
def belowOptimalMessage : String :=
  "Liquidity below optimal range - consider asset liquidation or capital raise"

/-- The recommendation pushed when `optimalRatio` fails with the ratio above
the optimal range. -/
def aboveOptimalMessage : String :=
  "Liquidity above optimal range - consider redeployment for higher returns"

/-- The recommendation pushed when `phiAligned` fails. -/
def phiAlignmentMessage : String :=
  "Adjust liquidity to align with Phi-hedged optimal ratio for risk balance"

/-- `generateLiquidityRecommendations(validations, current, required)`: one
message per failing check, evaluated in the fixed source order, and the single
affirmative message when none failed. -/
def generateLiquidityRecommendations (v : Validations) (current required : ℚ) : List String :=
  let recs : List String := []
  let recs := if !v.sufficientLiquidity then
      recs ++ [increaseLiquidityMessage (required - current)]
    else recs
  let recs := if !v.emergencyReserveMet then recs ++ [emergencyReserveMessage] else recs
  let recs := if !v.optimalRatio then
      recs ++ [if current / required < 1 then belowOptimalMessage else aboveOptimalMessage]
    else recs
  let recs := if !v.phiAligned then recs ++ [phiAlignmentMessage] else recs
  if recs.isEmpty then [affirmativeMessage] else recs

/-- `validateLiquidityMechanisms(liquidityParams)`: the four threshold checks,
the status, the recommendations, and the `liquidityPool` overwrite.
Destructuring defaults 100000000 / 15000000 / 0.20 / 0.05 apply to absent
fields. -/
def validateLiquidityMechanisms (st : FrameworkState) (p : LiquidityParams) (now : String) :
    LiquidityResult × FrameworkState :=
  let totalAssetValue := p.totalAssetValue.getD 100000000
  let currentLiquidity := p.currentLiquidity.getD 15000000
  let requiredLiquidityRatio := p.requiredLiquidityRatio.getD 0.20
  let emergencyReserveRatio := p.emergencyReserveRatio.getD 0.05
  let requiredLiquidity := totalAssetValue * requiredLiquidityRatio
  let emergencyReserve := totalAssetValue * emergencyReserveRatio
  let actualRatio := currentLiquidity / totalAssetValue
  let phiScore := actualRatio * st.config.phiRatio
  let validations : Validations :=
    { sufficientLiquidity := decide (currentLiquidity ≥ requiredLiquidity)
      emergencyReserveMet := decide (currentLiquidity ≥ emergencyReserve)
      optimalRatio := decide (actualRatio ≥ requiredLiquidityRatio) && decide (actualRatio ≤ 0.35)
      phiAligned := decide (phiScore ≥ 0.30) }
  let allValidationsPassed := validations.sufficientLiquidity && validations.emergencyReserveMet
      && validations.optimalRatio && validations.phiAligned
  ({ totalAssetValue := totalAssetValue
     currentLiquidity := currentLiquidity
     requiredLiquidity := requiredLiquidity
     emergencyReserve := emergencyReserve
     actualLiquidityRatio := toFixedStr 2 (actualRatio * 100) ++ "%"
     phiLiquidityScore := toFixedStr 4 phiScore
     validations := validations
     status := if allValidationsPassed then "VALIDATED" else "NEEDS_ATTENTION"
     recommendations := generateLiquidityRecommendations validations currentLiquidity requiredLiquidity
     timestamp := now },
   { st with liquidityPool := currentLiquidity })

/-- The argument object of `generateComprehensiveDCF`. -/
structure DCFParams where
  projection : Option ProjectionParams := none
  liquidity : Option LiquidityParams := none
  deriving DecidableEq, Repr, Inhabited

/-- The `npv` sub-object of a comprehensive analysis. -/
structure NPVInfo where
  value : ℚ
  formatted : String
  discountRate : String
  status : String
  deriving DecidableEq, Repr, Inhabited

/-- The object returned by `generateComprehensiveDCF` (the `analysis` and
`overallAssessment` nesting is flattened; every field is kept). -/
structure ComprehensiveResult where
  projectName : String
  location : String
  yieldProjection : YieldProjectionResult
  irrAnalysis : IRRResult
  liquidityValidation : LiquidityResult
  npv : NPVInfo
  investmentViability : String
  riskLevel : String
  phiAlignment : String
  timestamp : String
  deriving DecidableEq, Repr, Inhabited

/-- The NPV reduction of `generateComprehensiveDCF`: the discounted sum over
the engine's whole ledger minus the (fallback-substituted) initial
investment. -/
def dcfNPV (cfg : Config) (flows : List CashFlowRecord) (irrInvestment : ℚ) : ℚ :=
  flows.foldl (fun sum cf => sum + cf.amount / (1 + cfg.discountRate) ^ cf.year) 0 - irrInvestment

/-- `generateComprehensiveDCF(params)`: runs the projection, the IRR
estimation and the liquidity validation in order, computes the NPV and the
overall assessment.  The IRR estimation and the NPV subtraction both use
`params.projection?.initialInvestment || 50000000` (JavaScript `||`, so a
provided `0` is replaced by the default), while the projection itself uses the
destructuring default (a provided `0` is kept).  `riskLevel` compares
`parseFloat(irrAnalysis.phiHedgedIRR)` with `12`; `parseFloat` of the
`toFixed(2)`-formatted percentage string reads back exactly the rounded value,
modelled by `toFixedVal 2`.  A thrown IRR error propagates; the ledger keeps
the records the projection already pushed. -/
def generateComprehensiveDCF (jsPow : ℚ → ℚ → ℚ) (st : FrameworkState) (params : DCFParams)
    (now : String) : Except String ComprehensiveResult × FrameworkState :=
  let proj := calculateYieldProjection st (params.projection.getD {}) now
  let irrInvestment := jsOr (params.projection.bind fun q => q.initialInvestment) 50000000
  match calculatePhiHedgedIRR jsPow proj.2 irrInvestment now with
  | .error e => (.error e, proj.2)
  | .ok irrAnalysis =>
    let liq := validateLiquidityMechanisms proj.2 (params.liquidity.getD {}) now
    let npv := dcfNPV st.config liq.2.cashFlows irrInvestment
    (.ok { projectName := st.config.projectName
           location := st.config.location
           yieldProjection := proj.1
           irrAnalysis := irrAnalysis
           liquidityValidation := liq.1
           npv := { value := npv
                    formatted := "$" ++ toFixedStr 2 (npv / 1000000) ++ "M"
                    discountRate := jsNumToString (st.config.discountRate * 100) ++ "%"
                    status := if npv > 0 then "POSITIVE" else "NEGATIVE" }
           investmentViability :=
             if 0 < npv ∧ liq.1.status = "VALIDATED" then "VIABLE" else "REVIEW_NEEDED"
           riskLevel :=
             if toFixedVal 2 (hedgedIRRval jsPow proj.2.config proj.2.cashFlows irrInvestment * 100) > 12
             then "LOW" else "MODERATE"
           phiAlignment := "OPTIMIZED"
           timestamp := now },
     liq.2)

/-!  Helper lemmas about the embedded operations. -/

/-- The projection loop pushes exactly one cash-flow record per year. -/
theorem projectionLoop_flows_length (cfg : Config) (i g o : ℚ) (n : ℕ) :
    (projectionLoop cfg i g o n).2.1.length = n := by
  induction n with
  | zero => rfl
  | succ n ih => simp [projectionLoop, ih]

/-- Every yearly row satisfies the phi-adjustment equation of the loop body. -/
theorem projectionLoop_phi_eq (cfg : Config) (i g o : ℚ) (n : ℕ) (row : YearlyProjection)
    (hmem : row ∈ (projectionLoop cfg i g o n).1) :
    row.phiAdjustedYield = row.adjustedYield * (1 + (1 / cfg.phiRatio - 1) * 0.1) := by
  induction n with
  | zero => simp [projectionLoop] at hmem
  | succ n ih =>
    simp only [projectionLoop, List.mem_append, List.mem_singleton] at hmem
    rcases hmem with h | h
    · exact ih h
    · subst h; rfl

/-- With a zero initial investment every yearly phi-adjusted yield is zero. -/
theorem projectionLoop_zero_rows (cfg : Config) (g o : ℚ) (n : ℕ) (row : YearlyProjection)
    (hmem : row ∈ (projectionLoop cfg 0 g o n).1) : row.phiAdjustedYield = 0 := by
  induction n with
  | zero => simp [projectionLoop] at hmem
  | succ n ih =>
    simp only [projectionLoop, List.mem_append, List.mem_singleton] at hmem
    rcases hmem with h | h
    · exact ih h
    · subst h; simp

/-- With a zero initial investment every pushed cash-flow amount is zero. -/
theorem projectionLoop_zero_flows (cfg : Config) (g o : ℚ) (n : ℕ) (cf : CashFlowRecord)
    (hmem : cf ∈ (projectionLoop cfg 0 g o n).2.1) : cf.amount = 0 := by
  induction n with
  | zero => simp [projectionLoop] at hmem
  | succ n ih =>
    simp only [projectionLoop, List.mem_append, List.mem_singleton] at hmem
    rcases hmem with h | h
    · exact ih h
    · subst h; simp

/-- The ledger after a projection call is the prior ledger with the loop's
records appended. -/
theorem calculateYieldProjection_cashFlows (st : FrameworkState) (p : ProjectionParams)
    (now : String) :
    (calculateYieldProjection st p now).2.cashFlows =
      st.cashFlows ++ (projectionLoop st.config (p.initialInvestment.getD 50000000)
        (p.growthRate.getD 0.12) (p.occupancyRate.getD 0.92) (p.years.getD 10)).2.1 := rfl

/-- A projection call does not change the configuration. -/
theorem calculateYieldProjection_config (st : FrameworkState) (p : ProjectionParams)
    (now : String) : (calculateYieldProjection st p now).2.config = st.config := rfl

/-- A liquidity validation call does not change the ledger. -/
theorem validateLiquidityMechanisms_cashFlows (st : FrameworkState) (p : LiquidityParams)
    (now : String) : ((validateLiquidityMechanisms st p now).2).cashFlows = st.cashFlows := rfl

/-- A left fold accumulating `f` over the ledger is the sum of the mapped
list. -/
theorem foldl_add_map_sum (f : CashFlowRecord → ℚ) (l : List CashFlowRecord) (s : ℚ) :
    l.foldl (fun acc cf => acc + f cf) s = s + (l.map f).sum := by
  induction l generalizing s with
  | nil => simp
  | cons cf l ih => rw [List.foldl_cons, ih, List.map_cons, List.sum_cons]; ring

/-- The NPV reduction equals the discounted sum minus the investment. -/
theorem dcfNPV_eq (cfg : Config) (flows : List CashFlowRecord) (inv : ℚ) :
    dcfNPV cfg flows inv =
      (flows.map fun cf => cf.amount / (1 + cfg.discountRate) ^ cf.year).sum - inv := by
  unfold dcfNPV
  rw [foldl_add_map_sum]
  ring

/-- On a non-empty ledger the IRR estimation returns a result. -/
theorem calculatePhiHedgedIRR_isOk (jsPow : ℚ → ℚ → ℚ) (st : FrameworkState) (inv : ℚ)
    (now : String) (h : st.cashFlows ≠ []) :
    ∃ r, calculatePhiHedgedIRR jsPow st inv now = .ok r := by
  unfold calculatePhiHedgedIRR
  rw [if_neg (by simpa using h)]
  exact ⟨_, rfl⟩

/-- Embeds `Math.pow` at the one exponent the concrete evaluations use:
`Math.pow(x, 1)` is exactly `x` (IEEE-754 `pow` with unit exponent is the
identity), so on a one-record ledger `powOne` agrees with the source. -/
def powOne : ℚ → ℚ → ℚ := fun q _ => q

/-!  C4: the IRR precondition. -/

/-- C4: `calculatePhiHedgedIRR` fails with the InvalidState error whose message
names the missing projection exactly when the engine's ledger is empty, and on
a non-empty ledger it returns a result instead. -/
theorem c4_irr_invalid_state_iff_empty (jsPow : ℚ → ℚ → ℚ) (st : FrameworkState) (inv : ℚ)
    (now : String) :
    (calculatePhiHedgedIRR jsPow st inv now =
        .error "No cash flows available. Run calculateYieldProjection first." ↔
      st.cashFlows = []) ∧
    (st.cashFlows ≠ [] → ∃ r, calculatePhiHedgedIRR jsPow st inv now = .ok r) := by
  refine ⟨?_, calculatePhiHedgedIRR_isOk jsPow st inv now⟩
  by_cases hl : st.cashFlows = []
  · unfold calculatePhiHedgedIRR
    simp [hl]
  · unfold calculatePhiHedgedIRR
    rw [if_neg (by simpa using hl)]
    simp [hl]

/-- Witness for C4 at concrete inputs: a fresh engine fails with the
InvalidState message, and a one-record ledger returns a result. -/
theorem c4_irr_invalid_state_iff_empty_witness :
    ∃ r, calculatePhiHedgedIRR powOne
      { config := {}, cashFlows := [{ year := 1, amount := 60000000 }], liquidityPool := 0 }
      50000000 "t" = .ok r :=
  (c4_irr_invalid_state_iff_empty powOne
    { config := {}, cashFlows := [{ year := 1, amount := 60000000 }], liquidityPool := 0 }
    50000000 "t").2 (by simp)

/-!  C7: ledger growth. -/

/-- C7: a projection call appends exactly `years` records after the existing
ledger records, leaving the prior records unchanged; in particular projecting
years=5 and then years=3 on a fresh engine leaves a ledger of length 8. -/
theorem c7_ledger_growth (st : FrameworkState) (p : ProjectionParams) (now : String) :
    (∃ added, (calculateYieldProjection st p now).2.cashFlows = st.cashFlows ++ added ∧
      added.length = p.years.getD 10) ∧
    ((calculateYieldProjection
        ((calculateYieldProjection (freshState {}) { years := some 5 } now).2)
        { years := some 3 } now).2.cashFlows.length = 8) := by
  constructor
  · exact ⟨_, rfl, projectionLoop_flows_length _ _ _ _ _⟩
  · simp [calculateYieldProjection_cashFlows, projectionLoop_flows_length, freshState]

/-!  C8: hedge monotonicity. -/

/-- C8: with `phiRatio > 1`, a non-empty ledger and a positive initial
investment, a strictly positive base IRR is strictly increased by the
phi-hedge. -/
theorem c8_hedge_monotonicity (jsPow : ℚ → ℚ → ℚ) (st : FrameworkState) (inv : ℚ)
    (hphi : 1 < st.config.phiRatio) (hne : st.cashFlows ≠ []) (hinv : 0 < inv)
    (hbase : 0 < baseIRRval jsPow st.cashFlows inv) :
    baseIRRval jsPow st.cashFlows inv < hedgedIRRval jsPow st.config st.cashFlows inv := by
  have hphi0 : (0:ℚ) < st.config.phiRatio := lt_trans one_pos hphi
  have hh : (0:ℚ) < hedgeFactorOf st.config := by
    unfold hedgeFactorOf
    exact one_div_pos.mpr hphi0
  have hk : (1:ℚ) < 1 + hedgeFactorOf st.config * 0.15 := by
    have : (0:ℚ) < hedgeFactorOf st.config * 0.15 := mul_pos hh (by norm_num)
    linarith
  unfold hedgedIRRval
  calc baseIRRval jsPow st.cashFlows inv
      = baseIRRval jsPow st.cashFlows inv * 1 := (mul_one _).symm
    _ < baseIRRval jsPow st.cashFlows inv * (1 + hedgeFactorOf st.config * 0.15) :=
        mul_lt_mul_of_pos_left hk hbase

/-- Witness for C8 at a concrete input: one cash flow of 60M against a 50M
investment gives a base IRR of 0.2, strictly below its hedged value. -/
theorem c8_hedge_monotonicity_witness :
    baseIRRval powOne [{ year := 1, amount := 60000000 }] 50000000 <
      hedgedIRRval powOne ({} : Config) [{ year := 1, amount := 60000000 }] 50000000 :=
  c8_hedge_monotonicity powOne
    { config := {}, cashFlows := [{ year := 1, amount := 60000000 }], liquidityPool := 0 }
    50000000 (by norm_num) (by simp)
    (by norm_num) (by norm_num [baseIRRval, totalCashFlow, powOne])

/-!  C9: the phi-adjustment dampens the adjusted yield. -/

/-- C9: every yearly row of every projection call satisfies
`phiAdjustedYield = adjustedYield * (1 + (1 / phiRatio - 1) * 0.1)`; for
`phiRatio > 1` that multiplier is strictly below one, so a strictly positive
adjusted yield is strictly reduced. -/
theorem c9_phi_dampening (st : FrameworkState) (p : ProjectionParams) (now : String)
    (row : YearlyProjection)
    (hmem : row ∈ (calculateYieldProjection st p now).1.yearlyProjections) :
    row.phiAdjustedYield = row.adjustedYield * (1 + (1 / st.config.phiRatio - 1) * 0.1) ∧
    (1 < st.config.phiRatio → (1 + (1 / st.config.phiRatio - 1) * 0.1) < 1) ∧
    (1 < st.config.phiRatio → 0 < row.adjustedYield →
      row.phiAdjustedYield < row.adjustedYield) := by
  have hmem2 : row ∈ (projectionLoop st.config (p.initialInvestment.getD 50000000)
      (p.growthRate.getD 0.12) (p.occupancyRate.getD 0.92) (p.years.getD 10)).1 := hmem
  have heq := projectionLoop_phi_eq st.config _ _ _ _ row hmem2
  have hmul : 1 < st.config.phiRatio → (1 + (1 / st.config.phiRatio - 1) * 0.1) < 1 := by
    intro hphi
    have hphi0 : (0:ℚ) < st.config.phiRatio := lt_trans one_pos hphi
    have hlt : 1 / st.config.phiRatio < 1 := by
      rw [div_lt_one hphi0]
      exact hphi
    nlinarith
  refine ⟨heq, hmul, ?_⟩
  intro hphi hpos
  calc row.phiAdjustedYield
      = row.adjustedYield * (1 + (1 / st.config.phiRatio - 1) * 0.1) := heq
    _ < row.adjustedYield * 1 := mul_lt_mul_of_pos_left (hmul hphi) hpos
    _ = row.adjustedYield := mul_one _

/-- The first yearly row of a concrete one-year projection call. -/
def c9Row : YearlyProjection :=
  (calculateYieldProjection (freshState {}) { years := some 1 } "t").1.yearlyProjections.headI

/-- Witness for C9 at a concrete input: the default one-year projection
satisfies the unconditional equation, and with the default phiRatio above one
and a positive adjusted yield the phi-adjusted yield strictly decreases. -/
theorem c9_phi_dampening_witness :
    c9Row.phiAdjustedYield =
      c9Row.adjustedYield * (1 + (1 / (freshState {}).config.phiRatio - 1) * 0.1) ∧
    c9Row.phiAdjustedYield < c9Row.adjustedYield :=
  ⟨(c9_phi_dampening (freshState {}) { years := some 1 } "t" c9Row
      (List.mem_singleton_self _)).1,
   (c9_phi_dampening (freshState {}) { years := some 1 } "t" c9Row
      (List.mem_singleton_self _)).2.2
     (by norm_num [freshState])
     (by norm_num [c9Row, calculateYieldProjection, projectionLoop, freshState])⟩

/-!  C2: the viability verdict gating. -/

/-- C2: a completed synthesis reports `investmentViability = VIABLE` exactly
when the computed NPV is positive and the liquidity status is VALIDATED, and
reports REVIEW_NEEDED whenever that conjunction fails. -/
theorem c2_viability_gating (jsPow : ℚ → ℚ → ℚ) (st : FrameworkState) (params : DCFParams)
    (now : String) (res : ComprehensiveResult)
    (h : (generateComprehensiveDCF jsPow st params now).1.toOption = some res) :
    (res.investmentViability = "VIABLE" ↔
      0 < res.npv.value ∧ res.liquidityValidation.status = "VALIDATED") ∧
    (¬ (0 < res.npv.value ∧ res.liquidityValidation.status = "VALIDATED") →
      res.investmentViability = "REVIEW_NEEDED") := by
  simp only [generateComprehensiveDCF] at h
  split at h
  · simp [Except.toOption] at h
  · simp only [Except.toOption, Option.some.injEq] at h
    subst h
    simp only []
    split_ifs with hc
    · simp [hc]
    · simp [hc]

/-- Concrete projection parameters used by the synthesis witnesses. -/
def sampleProjection : ProjectionParams :=
  { initialInvestment := some 50000000, years := some 1,
    growthRate := some 0.12, occupancyRate := some 0.92 }

/-- Concrete synthesis parameters used by the synthesis witnesses. -/
def sampleParams : DCFParams :=
  { projection := some sampleProjection, liquidity := some {} }

/-- The result of the concrete sample synthesis on a fresh engine. -/
def sampleRes : ComprehensiveResult :=
  (generateComprehensiveDCF powOne (freshState {}) sampleParams "t").1.toOption.getD default

/-- Witness for C2 at the concrete sample synthesis. -/
theorem c2_viability_gating_witness :
    (sampleRes.investmentViability = "VIABLE" ↔
      0 < sampleRes.npv.value ∧ sampleRes.liquidityValidation.status = "VALIDATED") ∧
    (¬ (0 < sampleRes.npv.value ∧ sampleRes.liquidityValidation.status = "VALIDATED") →
      sampleRes.investmentViability = "REVIEW_NEEDED") :=
  c2_viability_gating powOne (freshState {}) sampleParams "t" sampleRes rfl

/-!  C3: the NPV formula on a fresh engine. -/

/-- C3: on a fresh engine with a provided positive initial investment, the
synthesis reports `NPV` equal to the discounted sum over the ledger records
this synthesis produced minus that initial investment. -/
theorem c3_npv_formula (jsPow : ℚ → ℚ → ℚ) (st : FrameworkState) (params : DCFParams)
    (pp : ProjectionParams) (inv : ℚ) (now : String) (res : ComprehensiveResult)
    (hfresh : st.cashFlows = [])
    (hproj : params.projection = some pp)
    (hinv : pp.initialInvestment = some inv)
    (hpos : 0 < inv)
    (h : (generateComprehensiveDCF jsPow st params now).1.toOption = some res) :
    res.npv.value =
      (((calculateYieldProjection st pp now).2.cashFlows).map
        (fun cf => cf.amount / (1 + st.config.discountRate) ^ cf.year)).sum - inv := by
  have hinv0 : inv ≠ 0 := Ne.symm (ne_of_lt hpos)
  have hjs : jsOr pp.initialInvestment 50000000 = inv := by
    rw [hinv]
    show (if inv = 0 then (50000000:ℚ) else inv) = inv
    rw [if_neg hinv0]
  simp only [generateComprehensiveDCF, hproj, Option.getD_some, Option.some_bind, hjs] at h
  split at h
  · simp [Except.toOption] at h
  · simp only [Except.toOption, Option.some.injEq] at h
    subst h
    simp only []
    rw [validateLiquidityMechanisms_cashFlows, dcfNPV_eq]

/-- Witness for C3 at the concrete sample synthesis. -/
theorem c3_npv_formula_witness :
    sampleRes.npv.value =
      (((calculateYieldProjection (freshState {}) sampleProjection "t").2.cashFlows).map
        (fun cf => cf.amount / (1 + (freshState {}).config.discountRate) ^ cf.year)).sum
        - 50000000 :=
  c3_npv_formula powOne (freshState {}) sampleParams sampleProjection 50000000 "t" sampleRes
    rfl rfl rfl (by norm_num) rfl

/-!  C10: the inconsistent fallback on a provided zero initial investment. -/

/-- C10: a synthesis called with `projection.initialInvestment = 0` runs the
yield projection with the given 0 (every yearly phi-adjusted yield and every
pushed cash-flow amount is zero), while the IRR estimation is invoked with the
substituted default 50000000 and the NPV subtraction also subtracts 50000000:
the three sub-computations disagree on the initial investment. -/
theorem c10_zero_investment_disagreement (jsPow : ℚ → ℚ → ℚ) (st : FrameworkState)
    (params : DCFParams) (pp : ProjectionParams) (now : String)
    (hproj : params.projection = some pp)
    (hzero : pp.initialInvestment = some 0)
    (hyears : 0 < pp.years.getD 10) :
    ∃ res, (generateComprehensiveDCF jsPow st params now).1.toOption = some res ∧
      res.yieldProjection.initialInvestment = 0 ∧
      (∀ row ∈ res.yieldProjection.yearlyProjections, row.phiAdjustedYield = 0) ∧
      (∃ added, (calculateYieldProjection st pp now).2.cashFlows = st.cashFlows ++ added ∧
        ∀ cf ∈ added, cf.amount = 0) ∧
      calculatePhiHedgedIRR jsPow ((calculateYieldProjection st pp now).2) 50000000 now =
        .ok res.irrAnalysis ∧
      res.npv.value =
        (((calculateYieldProjection st pp now).2.cashFlows).map
          (fun cf => cf.amount / (1 + st.config.discountRate) ^ cf.year)).sum - 50000000 := by
  have hjs : jsOr pp.initialInvestment 50000000 = 50000000 := by
    rw [hzero]
    show (if (0:ℚ) = 0 then (50000000:ℚ) else 0) = 50000000
    rw [if_pos rfl]
  have hlen : 0 < ((calculateYieldProjection st pp now).2).cashFlows.length := by
    rw [calculateYieldProjection_cashFlows, List.length_append, projectionLoop_flows_length]
    omega
  obtain ⟨irr, hirr⟩ :=
    calculatePhiHedgedIRR_isOk jsPow _ 50000000 now (List.ne_nil_of_length_pos hlen)
  refine ⟨((generateComprehensiveDCF jsPow st params now).1.toOption).getD default,
    ?_, ?_, ?_, ?_, ?_, ?_⟩
  · simp only [generateComprehensiveDCF, hproj, Option.getD_some, Option.some_bind, hjs, hirr,
      Except.toOption, Option.getD_some]
  · simp only [generateComprehensiveDCF, hproj, Option.getD_some, Option.some_bind, hjs, hirr,
      Except.toOption, Option.getD_some]
    simp [calculateYieldProjection, hzero]
  · simp only [generateComprehensiveDCF, hproj, Option.getD_some, Option.some_bind, hjs, hirr,
      Except.toOption, Option.getD_some]
    intro row hrow
    have hrow2 : row ∈ (projectionLoop st.config (pp.initialInvestment.getD 50000000)
        (pp.growthRate.getD 0.12) (pp.occupancyRate.getD 0.92) (pp.years.getD 10)).1 := hrow
    rw [hzero] at hrow2
    exact projectionLoop_zero_rows st.config _ _ _ row hrow2
  · refine ⟨_, calculateYieldProjection_cashFlows st pp now, ?_⟩
    intro cf hcf
    rw [hzero] at hcf
    exact projectionLoop_zero_flows st.config _ _ _ cf hcf
  · simp only [generateComprehensiveDCF, hproj, Option.getD_some, Option.some_bind, hjs, hirr,
      Except.toOption, Option.getD_some]
  · simp only [generateComprehensiveDCF, hproj, Option.getD_some, Option.some_bind, hjs, hirr,
      Except.toOption, Option.getD_some]
    rw [validateLiquidityMechanisms_cashFlows, dcfNPV_eq]

/-- Concrete zero-investment projection parameters for the C10 witness. -/
def zeroProjection : ProjectionParams := { initialInvestment := some 0, years := some 1 }

/-- Concrete zero-investment synthesis parameters for the C10 witness. -/
def zeroParams : DCFParams := { projection := some zeroProjection }

/-- Witness for C10 at a concrete zero-investment synthesis. -/
theorem c10_zero_investment_disagreement_witness :
    ∃ res, (generateComprehensiveDCF powOne (freshState {}) zeroParams "t").1.toOption =
        some res ∧
      res.yieldProjection.initialInvestment = 0 ∧
      (∀ row ∈ res.yieldProjection.yearlyProjections, row.phiAdjustedYield = 0) ∧
      (∃ added, (calculateYieldProjection (freshState {}) zeroProjection "t").2.cashFlows =
          (freshState {}).cashFlows ++ added ∧ ∀ cf ∈ added, cf.amount = 0) ∧
      calculatePhiHedgedIRR powOne
          ((calculateYieldProjection (freshState {}) zeroProjection "t").2) 50000000 "t" =
        .ok res.irrAnalysis ∧
      res.npv.value =
        (((calculateYieldProjection (freshState {}) zeroProjection "t").2.cashFlows).map
          (fun cf => cf.amount / (1 + (freshState {}).config.discountRate) ^ cf.year)).sum
          - 50000000 :=
  c10_zero_investment_disagreement powOne (freshState {}) zeroParams zeroProjection "t"
    rfl rfl (by simp [zeroProjection])

/-!  C6: determinism, corrected for the wall-clock timestamp field. -/

/-- Erases the informational timestamp of a yield projection result. -/
def YieldProjectionResult.stripTimestamp (r : YieldProjectionResult) : YieldProjectionResult :=
  { r with timestamp := "" }

/-- Erases the informational timestamp of an IRR analysis result. -/
def IRRResult.stripTimestamp (r : IRRResult) : IRRResult :=
  { r with timestamp := "" }

/-- Erases the informational timestamp of a liquidity validation result. -/
def LiquidityResult.stripTimestamp (r : LiquidityResult) : LiquidityResult :=
  { r with timestamp := "" }

/-- C6 counterexample: two `project` calls with identical arguments and
identical prior state, made at different wall-clock instants, return result
objects that are not bit-identical — their `timestamp` fields differ. -/
theorem c6_counterexample :
    (calculateYieldProjection (freshState {}) { years := some 1 }
        "2026-01-10T00:00:00.000Z").1 ≠
      (calculateYieldProjection (freshState {}) { years := some 1 }
        "2026-01-10T00:00:01.000Z").1 := by
  intro h
  have h2 := congrArg (fun r => r.timestamp) h
  simp [calculateYieldProjection] at h2

/-- C6 amended: for identical inputs and identical prior state the outputs of
`project`, `estimateHedgedIRR` and `validateLiquidity` agree in every field
except the informational wall-clock timestamp (and the post-states are
identical); with equal clock readings the outputs are fully bit-identical. -/
theorem c6_deterministic_modulo_timestamp (jsPow : ℚ → ℚ → ℚ) (st : FrameworkState)
    (pp : ProjectionParams) (inv : ℚ) (lp : LiquidityParams) (t1 t2 : String) :
    (calculateYieldProjection st pp t1).1.stripTimestamp =
      (calculateYieldProjection st pp t2).1.stripTimestamp ∧
    (calculateYieldProjection st pp t1).2 = (calculateYieldProjection st pp t2).2 ∧
    (calculatePhiHedgedIRR jsPow st inv t1).map IRRResult.stripTimestamp =
      (calculatePhiHedgedIRR jsPow st inv t2).map IRRResult.stripTimestamp ∧
    (validateLiquidityMechanisms st lp t1).1.stripTimestamp =
      (validateLiquidityMechanisms st lp t2).1.stripTimestamp ∧
    (validateLiquidityMechanisms st lp t1).2 = (validateLiquidityMechanisms st lp t2).2 := by
  refine ⟨rfl, rfl, ?_, rfl, rfl⟩
  unfold calculatePhiHedgedIRR
  split <;> rfl

/-!  C1: the risk level is decided on a re-parsed rounded percentage string. -/

/-- Projection parameters whose hedged IRR lands in the interval
(0.12, 0.12005), on which the numeric comparison and the `toFixed(2)`-rounded
re-parsed percentage disagree. -/
def c1Projection : ProjectionParams :=
  { initialInvestment := some 50000000, years := some 1,
    growthRate := some 0.1539, occupancyRate := some 1 }

/-- The C1 failing synthesis input. -/
def c1Params : DCFParams := { projection := some c1Projection, liquidity := some {} }

/-- The C1 failing synthesis output. -/
def c1Out : Except String ComprehensiveResult × FrameworkState :=
  generateComprehensiveDCF powOne (freshState {}) c1Params "t"

/-- C1, evaluated at the failing input: the hedged IRR of this synthesis
exceeds 0.12 taken as the decimal rate — so the claim (and the spec's
numeric-comparison requirement) demand `riskLevel = LOW`, and indeed the
code's own recommendation field, which compares the numeric rate with 0.12,
reports Strong Buy — yet the reported riskLevel is MODERATE, because the code
compares `parseFloat` of the `toFixed(2)`-rounded percentage string
(here exactly 12.00) with 12. -/
theorem c1_riskLevel_reparses_rounded_percentage :
    0.12 < hedgedIRRval powOne (freshState {}).config c1Out.2.cashFlows 50000000 ∧
    c1Out.1.toOption.map (fun r => (r.riskLevel, r.irrAnalysis.recommendation)) =
      some ("MODERATE", "Strong Buy") := by
  constructor
  · norm_num [c1Out, generateComprehensiveDCF, calculateYieldProjection, projectionLoop,
      validateLiquidityMechanisms, calculatePhiHedgedIRR, hedgedIRRval, baseIRRval,
      totalCashFlow, hedgeFactorOf, powOne, jsOr, dcfNPV, freshState, c1Params, c1Projection]
  · norm_num [c1Out, generateComprehensiveDCF, calculateYieldProjection, projectionLoop,
      validateLiquidityMechanisms, calculatePhiHedgedIRR, hedgedIRRval, baseIRRval,
      totalCashFlow, hedgeFactorOf, powOne, jsOr, dcfNPV, freshState, c1Params, c1Projection,
      toFixedVal, roundHalfUp, Except.toOption]

/-!  C5: liquidity status and recommendation consistency. -/

/-- The affirmative message differs from the emergency-reserve message. -/
theorem affirm_ne_emergency : ¬ (affirmativeMessage = emergencyReserveMessage) := by decide

/-- The affirmative message differs from the below-optimal message. -/
theorem affirm_ne_below : ¬ (affirmativeMessage = belowOptimalMessage) := by decide

/-- The affirmative message differs from the above-optimal message. -/
theorem affirm_ne_above : ¬ (affirmativeMessage = aboveOptimalMessage) := by decide

/-- The affirmative message differs from the phi-alignment message. -/
theorem affirm_ne_phiMsg : ¬ (affirmativeMessage = phiAlignmentMessage) := by decide

/-- The increase-liquidity message starts with the letter I for every
deficit. -/
theorem increase_head (d : ℚ) : (increaseLiquidityMessage d).data.head? = some 'I' := by
  unfold increaseLiquidityMessage
  rw [String.data_append, String.data_append]
  rw [show ("Increase liquidity by $" : String).data =
      'I' :: ("ncrease liquidity by $" : String).data from rfl]
  simp

/-- The affirmative message differs from every increase-liquidity message. -/
theorem affirm_ne_increase (d : ℚ) : ¬ (affirmativeMessage = increaseLiquidityMessage d) := by
  intro h
  have h2 : affirmativeMessage.data.head? = (increaseLiquidityMessage d).data.head? := by rw [h]
  rw [increase_head] at h2
  exact absurd h2 (by decide)

/-- The affirmative message differs from the optimal-range message, whichever
direction is reported. -/
theorem affirm_ne_optimal (c r : ℚ) :
    ¬ (affirmativeMessage = if c / r < 1 then belowOptimalMessage else aboveOptimalMessage) := by
  split_ifs
  · exact affirm_ne_below
  · exact affirm_ne_above

/-- Core consistency fact over the four validation booleans: the status is
VALIDATED exactly when all four hold, the recommendation list is never empty,
and it contains the affirmative message exactly when the status is
VALIDATED. -/
theorem liquidity_consistency_core (b1 b2 b3 b4 : Bool) (cur req : ℚ) :
    (((if b1 && b2 && b3 && b4 then "VALIDATED" else "NEEDS_ATTENTION") = "VALIDATED") ↔
      (b1 = true ∧ b2 = true ∧ b3 = true ∧ b4 = true)) ∧
    (¬ (b1 = true ∧ b2 = true ∧ b3 = true ∧ b4 = true) →
      (if b1 && b2 && b3 && b4 then "VALIDATED" else "NEEDS_ATTENTION") = "NEEDS_ATTENTION") ∧
    (generateLiquidityRecommendations ⟨b1, b2, b3, b4⟩ cur req ≠ []) ∧
    (affirmativeMessage ∈ generateLiquidityRecommendations ⟨b1, b2, b3, b4⟩ cur req ↔
      (if b1 && b2 && b3 && b4 then "VALIDATED" else "NEEDS_ATTENTION") = "VALIDATED") := by
  cases b1 <;> cases b2 <;> cases b3 <;> cases b4 <;>
    simp [generateLiquidityRecommendations, affirm_ne_increase, affirm_ne_emergency,
      affirm_ne_optimal, affirm_ne_phiMsg]

/-- C5: for a nonzero total asset value, a liquidity validation reports
`status = VALIDATED` exactly when all four boolean checks pass and reports
`status = NEEDS_ATTENTION` whenever any of them fails; its recommendation
list is non-empty in every case and contains the affirmative message exactly
when the status is VALIDATED. -/
theorem c5_liquidity_status_consistency (st : FrameworkState) (p : LiquidityParams)
    (now : String) (htav : p.totalAssetValue.getD 100000000 ≠ 0) :
    ((validateLiquidityMechanisms st p now).1.status = "VALIDATED" ↔
      ((validateLiquidityMechanisms st p now).1.validations.sufficientLiquidity = true ∧
       (validateLiquidityMechanisms st p now).1.validations.emergencyReserveMet = true ∧
       (validateLiquidityMechanisms st p now).1.validations.optimalRatio = true ∧
       (validateLiquidityMechanisms st p now).1.validations.phiAligned = true)) ∧
    (¬ ((validateLiquidityMechanisms st p now).1.validations.sufficientLiquidity = true ∧
        (validateLiquidityMechanisms st p now).1.validations.emergencyReserveMet = true ∧
        (validateLiquidityMechanisms st p now).1.validations.optimalRatio = true ∧
        (validateLiquidityMechanisms st p now).1.validations.phiAligned = true) →
      (validateLiquidityMechanisms st p now).1.status = "NEEDS_ATTENTION") ∧
    (validateLiquidityMechanisms st p now).1.recommendations ≠ [] ∧
    (affirmativeMessage ∈ (validateLiquidityMechanisms st p now).1.recommendations ↔
      (validateLiquidityMechanisms st p now).1.status = "VALIDATED") := by
  simp only [validateLiquidityMechanisms]
  exact liquidity_consistency_core _ _ _ _ _ _

/-- Witness for C5: the default liquidity parameters (whose total asset value
is the nonzero default 100000000). -/
theorem c5_liquidity_status_consistency_witness :
    ((validateLiquidityMechanisms (freshState {}) {} "t").1.status = "VALIDATED" ↔
      ((validateLiquidityMechanisms (freshState {}) {} "t").1.validations.sufficientLiquidity
          = true ∧
       (validateLiquidityMechanisms (freshState {}) {} "t").1.validations.emergencyReserveMet
          = true ∧
       (validateLiquidityMechanisms (freshState {}) {} "t").1.validations.optimalRatio = true ∧
       (validateLiquidityMechanisms (freshState {}) {} "t").1.validations.phiAligned = true)) ∧
    (¬ ((validateLiquidityMechanisms (freshState {}) {} "t").1.validations.sufficientLiquidity
          = true ∧
        (validateLiquidityMechanisms (freshState {}) {} "t").1.validations.emergencyReserveMet
          = true ∧
        (validateLiquidityMechanisms (freshState {}) {} "t").1.validations.optimalRatio = true ∧
        (validateLiquidityMechanisms (freshState {}) {} "t").1.validations.phiAligned = true) →
      (validateLiquidityMechanisms (freshState {}) {} "t").1.status = "NEEDS_ATTENTION") ∧
    (validateLiquidityMechanisms (freshState {}) {} "t").1.recommendations ≠ [] ∧
    (affirmativeMessage ∈ (validateLiquidityMechanisms (freshState {}) {} "t").1.recommendations ↔
      (validateLiquidityMechanisms (freshState {}) {} "t").1.status = "VALIDATED") :=
  c5_liquidity_status_consistency (freshState {}) {} "t" (by norm_num)

end RussellDCF
